import Mathlib

/-!
Verification of the power-state and duty-cycle coordination subsystem of the
OpenLog Artemis GNSS Logger firmware
(`Firmware/OpenLog_Artemis_GNSS_Logging/OpenLog_Artemis_GNSS_Logging.ino` and
the power-options menu file).

The firmware's C++ globals and functions are shallowly embedded as Lean
definitions.  Machine `uint64_t` arithmetic is modelled as `Nat` with an
explicit `% 2 ^ 64` at the points where the C code can wrap.  Digital pin
reads are modelled as `Bool` (`true` = HIGH, `false` = LOW).
-/

namespace OLAGnss

/-- `2 ^ 64`, the modulus of C `uint64_t` arithmetic. -/
def UINT64_MOD : Nat := 2 ^ 64

/-- The fields of the firmware's `settings` record (`settings.h` aggregate)
that the verified code paths read or write.  Durations are in microseconds,
exactly as the firmware stores them (`usSleepDuration`, `usLoggingDuration`). -/
structure Settings where
  wakeOnPowerReconnect : Bool
  powerDownQwiicBusBetweenReads : Bool
  enablePwrLedDuringSleep : Bool
  enableSD : Bool
  logData : Bool
  openNewLogFile : Bool
  nextDataLogNumber : Nat
  usSleepDuration : Nat
  usLoggingDuration : Nat
  printMajorDebugMessages : Bool
  printMinorDebugMessages : Bool
  deriving DecidableEq

/-- Concrete settings for the spec's duty-cycle scenario:
`activeDurationMs = 10000` (`usLoggingDuration = 10000000`),
`sleepDurationMs = 5000` (`usSleepDuration = 5000000`). -/
def scenarioSettings : Settings :=
  { wakeOnPowerReconnect := true
    powerDownQwiicBusBetweenReads := false
    enablePwrLedDuringSleep := false
    enableSD := true
    logData := true
    openNewLogFile := false
    nextDataLogNumber := 1
    usSleepDuration := 5000000
    usLoggingDuration := 10000000
    printMajorDebugMessages := false
    printMinorDebugMessages := false }

/-- `scenarioSettings` with `usSleepDuration = 0`: continuous-logging mode. -/
def continuousSettings : Settings :=
  { scenarioSettings with usSleepDuration := 0 }

/-! ## Watchdog Supervisor (`am_watchdog_isr`, .ino lines 587-599)

The interrupt handler clears the watchdog interrupt and then decides whether
to re-arm ("pet") the watchdog:

```c
if ((wakeOnPowerReconnect == false) || (waitingForReset == false)
    || (digitalRead(PIN_POWER_LOSS) == LOW))
  am_hal_wdt_restart(); // "Pet" the dog.
```

`PIN_POWER_LOSS` reads LOW while supply power is absent (the BD49K30G
detector pulls its output low below the voltage threshold; `setup` treats a
LOW read as a missed power-loss edge) and HIGH once power has been
reapplied. -/

/-- Whether `am_watchdog_isr` pets (re-arms) the watchdog.
`pinPowerLossHigh` is the value of `digitalRead(PIN_POWER_LOSS)`:
`true` = HIGH (power restored), `false` = LOW (power still absent). -/
def am_watchdog_isr_pets (wakeOnPowerReconnect waitingForReset pinPowerLossHigh : Bool) : Bool :=
  (wakeOnPowerReconnect == false) || (waitingForReset == false) || (pinPowerLossHigh == false)

/-! ## Duty-Cycle Scheduler (`loop`, .ino lines 315-331)

```c
uint64_t timeNow = rtcMillis();
if ((settings.usSleepDuration > 0)
    && (timeNow > (measurementStartTime + (settings.usLoggingDuration / 1000ULL))))
{
  goToSleep();
  measurementStartTime = measurementStartTime
      + (settings.usLoggingDuration / 1000ULL) + (settings.usSleepDuration / 1000ULL);
  rtcNeedsSync = true;
}
```
-/

/-- The `loop` sleep decision: sleep is entered exactly when
`settings.usSleepDuration > 0` and
`timeNow > measurementStartTime + settings.usLoggingDuration / 1000`
(the `uint64_t` sum taken mod `2 ^ 64`). -/
def shouldSleepNow (st : Settings) (measurementStartTime timeNow : Nat) : Bool :=
  decide (0 < st.usSleepDuration) &&
    decide ((measurementStartTime + st.usLoggingDuration / 1000) % UINT64_MOD < timeNow)

/-- The post-sleep window advance of `measurementStartTime` (.ino line 328):
one full cycle (logging duration plus sleep duration, both converted from
microseconds to milliseconds), in `uint64_t` arithmetic. -/
def nextMeasurementStartTime (st : Settings) (measurementStartTime : Nat) : Nat :=
  (measurementStartTime + st.usLoggingDuration / 1000 + st.usSleepDuration / 1000) % UINT64_MOD

/-! ## Log file timestamps (`updateDataFileCreate` / `updateDataFileAccess` /
`updateDataFileWrite`, .ino lines 457-507)

Each function checks `rtcHasBeenSyncd` and, only when it is true, reads the
RTC (`myRTC.getTime()`) and stamps the file's metadata via
`gnssDataFile.timestamp(T_CREATE / T_ACCESS / T_WRITE, myRTC.year + 2000,
myRTC.month, myRTC.dayOfMonth, myRTC.hour, myRTC.minute, myRTC.seconds)`.
`updateDataFileAccess` stamps both the access and the write time. -/

/-- A calendar timestamp as passed to `FsFile.timestamp`. -/
structure DateTime where
  year : Nat
  month : Nat
  day : Nat
  hour : Nat
  minute : Nat
  second : Nat
  deriving DecidableEq

/-- The RTC register fields read by `myRTC.getTime()`. -/
structure RtcTime where
  year : Nat
  month : Nat
  dayOfMonth : Nat
  hour : Nat
  minute : Nat
  seconds : Nat
  deriving DecidableEq

/-- The timestamp actually written: `myRTC.year + 2000`, then month, day of
month, hour, minute, seconds. -/
def rtcStamp (t : RtcTime) : DateTime :=
  ⟨t.year + 2000, t.month, t.dayOfMonth, t.hour, t.minute, t.seconds⟩

/-- The timestamp metadata of the open log file (`none` = filesystem
default, never written). -/
structure FileMeta where
  createTs : Option DateTime
  accessTs : Option DateTime
  writeTs : Option DateTime
  deriving DecidableEq

/-- `updateDataFileCreate` (.ino lines 457-470): stamps `T_CREATE` from the
RTC only when `rtcHasBeenSyncd` is true. -/
def updateDataFileCreate (rtcHasBeenSyncd : Bool) (rtc : RtcTime) (f : FileMeta) : FileMeta :=
  if rtcHasBeenSyncd then { f with createTs := some (rtcStamp rtc) } else f

/-- `updateDataFileAccess` (.ino lines 472-492): stamps `T_ACCESS` and then
`T_WRITE` from the RTC only when `rtcHasBeenSyncd` is true. -/
def updateDataFileAccess (rtcHasBeenSyncd : Bool) (rtc : RtcTime) (f : FileMeta) : FileMeta :=
  if rtcHasBeenSyncd then
    { f with accessTs := some (rtcStamp rtc), writeTs := some (rtcStamp rtc) }
  else f

/-- `updateDataFileWrite` (.ino lines 494-507): stamps `T_WRITE` from the
RTC only when `rtcHasBeenSyncd` is true. -/
def updateDataFileWrite (rtcHasBeenSyncd : Bool) (rtc : RtcTime) (f : FileMeta) : FileMeta :=
  if rtcHasBeenSyncd then { f with writeTs := some (rtcStamp rtc) } else f

/-! ## Log File Lifecycle Manager (`beginSD`, .ino lines 341-405, and
`beginDataLogging`, .ino lines 416-455)

`beginDataLogging`:

```c
if (online.microSD == true && settings.logData == true)
{
  if ((strlen(gnssDataFileName) == 0) || (settings.openNewLogFile == true))
    strcpy(gnssDataFileName, findNextAvailableLog(settings.nextDataLogNumber, "dataLog"));
  if (gnssDataFile.open(gnssDataFileName, O_CREAT | O_APPEND | O_WRITE) == false)
  {
    online.dataLogging = false;
    return;
  }
  updateDataFileCreate();
  online.dataLogging = true;
}
else
  online.dataLogging = false;
```

`findNextAvailableLog` is defined in another tab of the sketch (not under
`src/`); it is abstracted here as a filename-allocator parameter
`findNext : Nat → String` standing for
`findNextAvailableLog(settings.nextDataLogNumber, "dataLog")`. -/

/-- A filesystem: file name to file contents (bytes), `none` = no such
file. -/
def FS : Type := String → Option (List Nat)

/-- The mode of an `FsFile.open` call. -/
inductive OpenMode where
  | appendCreate
  | truncate
  deriving DecidableEq

/-- One `open` request issued to the filesystem driver. -/
structure OpenReq where
  name : String
  mode : OpenMode
  deriving DecidableEq

/-- Modelled from the SdFat flag semantics of the external filesystem
driver: `O_CREAT | O_APPEND | O_WRITE` (`appendCreate`) creates the file
empty when absent and otherwise keeps its bytes, positioning writes at the
end; a truncating mode would discard the existing bytes. -/
def fsOpen (fs : FS) (name : String) (mode : OpenMode) : FS :=
  match mode with
  | .appendCreate => fun n => if n = name then some ((fs name).getD []) else fs n
  | .truncate => fun n => if n = name then some [] else fs n

/-- The globals read and written by `beginDataLogging`: the recorded log
file name (`gnssDataFileName`), and the `online.microSD` /
`online.dataLogging` flags. -/
structure LogMgrState where
  gnssDataFileName : String
  onlineMicroSD : Bool
  onlineDataLogging : Bool
  deriving DecidableEq

/-- The file name `beginDataLogging` opens (.ino lines 421-422): a freshly
allocated one when no name is recorded yet (`strlen == 0`) or
`settings.openNewLogFile` is set, the previously recorded name otherwise. -/
def chosenName (st : Settings) (findNext : Nat → String) (s : LogMgrState) : String :=
  if s.gnssDataFileName.length == 0 || st.openNewLogFile then
    findNext st.nextDataLogNumber
  else s.gnssDataFileName

/-- `beginDataLogging` (.ino lines 416-455).  `openOk` is the result of the
`gnssDataFile.open` call; the returned triple is the updated globals, the
updated filesystem, and the list of `open` requests issued. -/
def beginDataLogging (st : Settings) (findNext : Nat → String) (openOk : Bool)
    (fs : FS) (s : LogMgrState) : LogMgrState × FS × List OpenReq :=
  if s.onlineMicroSD && st.logData then
    let name := chosenName st findNext s
    if openOk then
      ({ s with gnssDataFileName := name, onlineDataLogging := true },
        fsOpen fs name .appendCreate, [⟨name, .appendCreate⟩])
    else
      ({ s with gnssDataFileName := name, onlineDataLogging := false },
        fs, [⟨name, .appendCreate⟩])
  else
    ({ s with onlineDataLogging := false }, fs, [])

/-- `beginSD` (.ino lines 341-405), projected onto its result: the final
value of `online.microSD` and the number of `sd.begin` attempts made.
`sd1` / `sd2` are the results of the first and (retry) second `sd.begin`
calls, `chdirOk` the result of `sd.chdir()`. -/
def beginSDOnline (enableSD sd1 sd2 chdirOk : Bool) : Bool × Nat :=
  if enableSD then
    if sd1 then (if chdirOk then (true, 1) else (false, 1))
    else if sd2 then (if chdirOk then (true, 2) else (false, 2))
    else (false, 2)
  else (false, 0)

/-! ## Power-options menu (`menuPower`, second source file)

```c
void menuPower()
{
  while (1)
  {
    byte incoming = getByteChoice(menuTimeout);
    if (incoming == '1')
      settings.wakeOnPowerReconnect ^= 1;
    else if (incoming == 'x')        break;
    else if (incoming == STATUS_GETBYTE_TIMEOUT) break;  // 255
    else printUnknown(incoming);
  }
}
```

The firmware is built with `HARDWARE_VERSION_MAJOR = 0` (.ino line 90), so
the `#if(HARDWARE_VERSION_MAJOR >= 1)` options '2' and '3' are compiled out
and fall through to `printUnknown`.  The input stream is modelled as the
list of bytes returned by successive `getByteChoice` calls (a timeout
returns 255); an exhausted list stands for a timeout on the next read. -/

/-- The globals `menuPower` can reach: the `settings` record and the
volatile global `wakeOnPowerReconnect` (.ino line 194), the copy the
watchdog ISR actually reads. -/
structure Globals where
  settings : Settings
  wakeOnPowerReconnectVol : Bool
  deriving DecidableEq

/-- The effect of menu option '1': `settings.wakeOnPowerReconnect ^= 1`. -/
def toggleWake (g : Globals) : Globals :=
  { g with settings :=
      { g.settings with wakeOnPowerReconnect := !g.settings.wakeOnPowerReconnect } }

/-- `menuPower` over the stream of bytes returned by `getByteChoice`.
`49` = '1', `120` = 'x', `255` = `STATUS_GETBYTE_TIMEOUT`. -/
def menuPower : List Nat → Globals → Globals
  | [], g => g
  | c :: rest, g =>
    if c = 49 then menuPower rest (toggleWake g)
    else if c = 120 then g
    else if c = 255 then g
    else menuPower rest g

/-- A concrete starting state for the menu claims: settings copy and
volatile copy of the wake flag both `true`. -/
def g0 : Globals := ⟨scenarioSettings, true⟩

/-! ## Power-Down/Wake Sequencer checkpoints (`setup`, .ino lines 226-304,
and `loop`, .ino lines 306-332)

`setup` and `loop` poll the volatile `lowPowerSeen` flag at fixed
checkpoints (`if (lowPowerSeen == true) powerDown();`) and `setup` also
checks the power-loss pin directly at boot
(`if (digitalRead(PIN_POWER_LOSS) == LOW) powerDown();`, line 241).
`beginSD` additionally polls the flag on every iteration of its two
power-up wait loops (10 and 250 iterations, lines 353-357 and 375-379).

Modelled from the spec: `powerDown` itself is defined outside `src/`; per
§4.5 the Power-Down/Wake Sequencer halts forward progress (ASLEEP or
RESETTING), so entering `powerDown` is modelled as a terminal event that
ends the run.

The `lowPowerSeen` flag is set only by the power-loss interrupt and never
cleared during `setup`/`loop`, so its successive checkpoint reads are
monotone; they are modelled by a single number `m`: the first `m` checkpoint
reads return `false` and every later read returns `true` (a run in which the
flag is never set corresponds to any `m` at least the total number of
reads). -/

/-- The phase actions of `setup` and `loop` that the checkpoints guard. -/
inductive Event where
  | startWatchdog
  | powerLEDOn
  | statLEDOn
  | powerDown
  | serialBegin
  | spiBegin
  | beginSD
  | loadSettings
  | beginQwiic
  | beginDataLogging
  | disableIMU
  | beginSensors
  | setMeasurementStart
  | statLEDOff
  | menuMain
  | storeData
  | goToSleep
  | updateMeasurementStart
  | setRtcNeedsSync
  deriving DecidableEq

/-- Run state of the checkpoint model: number of `lowPowerSeen` reads made
so far, and the actions performed so far. -/
structure CkState where
  idx : Nat
  trace : List Event
  deriving DecidableEq

/-- Append an action to the trace. -/
def emit (e : Event) (s : CkState) : CkState :=
  { s with trace := s.trace ++ [e] }

/-- The value of the `n`-th read of `lowPowerSeen` when the flag becomes
(and stays) set from the `m`-th read on. -/
def lowPowerRead (m n : Nat) : Bool := decide (m ≤ n)

/-- One `if (lowPowerSeen == true) powerDown();` checkpoint: reads the
flag; a `true` read enters the terminal power-down path (`Except.error`). -/
def checkpoint (m : Nat) (s : CkState) : Except CkState CkState :=
  if lowPowerRead m s.idx then .error (emit .powerDown { s with idx := s.idx + 1 })
  else .ok { s with idx := s.idx + 1 }

/-- `n` consecutive checkpoints (the flag polls inside `beginSD`'s power-up
wait loops). -/
def ckLoop (m : Nat) : Nat → CkState → Except CkState CkState
  | 0, s => .ok s
  | n + 1, s =>
    match checkpoint m s with
    | .ok s' => ckLoop m n s'
    | .error s' => .error s'

/-- Sequencing that short-circuits once the power-down path was entered. -/
def andThen (x : Except CkState CkState) (f : CkState → Except CkState CkState) :
    Except CkState CkState :=
  match x with
  | .ok s => f s
  | .error s => .error s

/-- The `beginSD` parameters that determine how many flag reads it makes:
whether SD is enabled and whether the first `sd.begin` succeeds (on a first
failure the 250-iteration wait loop runs before the retry). -/
structure SdParams where
  enableSD : Bool
  sdBegin1Ok : Bool
  deriving DecidableEq

/-- Number of `lowPowerSeen` reads `beginSD` makes. -/
def sdReads (p : SdParams) : Nat :=
  if p.enableSD then (if p.sdBegin1Ok then 10 else 260) else 0

/-- `beginSD` in the checkpoint model: the phase action, then its wait-loop
flag polls (10 iterations before the first `sd.begin`; on failure 250 more
before the retry). -/
def beginSDck (p : SdParams) (m : Nat) (s : CkState) : Except CkState CkState :=
  let s := emit .beginSD s
  if p.enableSD then
    andThen (ckLoop m 10 s) (fun s' =>
      if p.sdBegin1Ok then .ok s' else ckLoop m 250 s')
  else .ok s

/-- Perform a list of phase actions (none for a bare checkpoint). -/
def emits (l : List Event) (s : CkState) : CkState :=
  { s with trace := s.trace ++ l }

/-- A sequence of (phase actions, guarding checkpoint) pairs: each entry
performs its phase actions and then polls `lowPowerSeen` once. -/
def runPhases (m : Nat) : List (List Event) → CkState → Except CkState CkState
  | [], s => .ok s
  | evs :: rest, s => andThen (checkpoint m (emits evs s)) (runPhases m rest)

/-- The checkpointed phases of `setup` after `beginSD`, one entry per
`if (lowPowerSeen == true) powerDown();` line, in source order:
line 256 (directly after `beginSD`), line 260 (after `loadSettings`),
line 266 (after the serial re-begin, no modelled action), line 270 (after
`beginQwiic`), line 276 (after `beginDataLogging`), line 280 (after
`disableIMU`), line 296 (after `beginSensors` and
`measurementStartTime = rtcMillis()`). -/
def setupPhases : List (List Event) :=
  [[], [.loadSettings], [], [.beginQwiic], [.beginDataLogging], [.disableIMU],
    [.beginSensors, .setMeasurementStart]]

/-- `setup` (.ino lines 226-304) in the checkpoint model.  `pinLow` is the
boot-time `digitalRead(PIN_POWER_LOSS) == LOW` result (line 241). -/
def setupRun (pinLow : Bool) (p : SdParams) (m : Nat) : CkState :=
  let s0 := emits [.startWatchdog, .powerLEDOn, .statLEDOn] ⟨0, []⟩
  if pinLow then emit .powerDown s0
  else
    let r :=
      andThen (beginSDck p m (emits [.serialBegin, .spiBegin] s0)) (fun s =>
        andThen (runPhases m setupPhases s) (fun s => .ok (emit .statLEDOff s)))
    match r with
    | .ok s => s
    | .error s => s

/-- One `loop` iteration (.ino lines 306-332) in the checkpoint model,
started from a fresh read counter.  `serialAvail` is `Serial.available()`,
`sleepNow` the sleep decision of line 318. -/
def loopRunCk (serialAvail sleepNow : Bool) (m : Nat) : CkState :=
  let r :=
    andThen (checkpoint m ⟨0, []⟩) (fun s =>
      let s := if serialAvail then emit .menuMain s else s
      andThen (checkpoint m (emit .storeData s)) (fun s =>
        if sleepNow then
          .ok (emit .setRtcNeedsSync (emit .updateMeasurementStart (emit .goToSleep s)))
        else .ok s))
  match r with
  | .ok s => s
  | .error s => s

/-- The actions `setup` performs before entering the power-down path when
the `lowPowerSeen` flag becomes set from its `m`-th checkpoint read on
(`m ≤ sdReads p + 6`). -/
def setupPre (p : SdParams) (m : Nat) : List Event :=
  [.startWatchdog, .powerLEDOn, .statLEDOn, .serialBegin, .spiBegin, .beginSD]
    ++ (setupPhases.take (m - sdReads p + 1)).flatten

/-! ## Claim C8: wake from sleep forces an RTC re-sync request

State view of `loop` (.ino lines 306-332) over the globals the sleep branch
writes: `measurementStartTime` and `rtcNeedsSync`.  `storeData` and
`goToSleep` are defined outside `src/`; their effects on these globals are
abstracted as arbitrary state transformers, so the theorem holds whatever
they do — the decisive code is the assignment `rtcNeedsSync = true;`
(line 330), which runs after `goToSleep()` returns and before the next
iteration's `storeData()`. -/

/-- The `loop` globals the sleep branch writes. -/
structure LoopState where
  measurementStartTime : Nat
  rtcNeedsSync : Bool
  deriving DecidableEq

/-- Per-iteration environment: the `rtcMillis()` reading and the abstract
effects of `storeData()` and `goToSleep()` on the modelled globals. -/
structure IterEnv where
  timeNow : Nat
  storeDataEffect : LoopState → LoopState
  goToSleepEffect : LoopState → LoopState

/-- One `loop` iteration in the state view, returning the new state and
whether the sleep branch was taken: `storeData()`, then the sleep decision;
on sleep, `goToSleep()`, then the window advance, then
`rtcNeedsSync = true` (source order of lines 311-330). -/
def loopBodyS (st : Settings) (e : IterEnv) (s : LoopState) : LoopState × Bool :=
  let s0 := e.storeDataEffect s
  if shouldSleepNow st s0.measurementStartTime e.timeNow then
    let s1 := e.goToSleepEffect s0
    ({ s1 with
        measurementStartTime := nextMeasurementStartTime st s1.measurementStartTime,
        rtcNeedsSync := true }, true)
  else (s0, false)

/-- Run `loop` over a list of per-iteration environments, recording for each
iteration the state its `storeData()` sample observes on entry and whether
that iteration took the sleep branch. -/
def runIters (st : Settings) : List IterEnv → LoopState → List (LoopState × Bool)
  | [], _ => []
  | e :: es, s => (s, (loopBodyS st e s).2) :: runIters st es (loopBodyS st e s).1

/-- Environments for the C8 witness: the first iteration sees a time well
past the active window (so it sleeps), the second does not; `storeData` and
`goToSleep` effects are the identity. -/
def envsW : List IterEnv := [⟨20000, id, id⟩, ⟨0, id, id⟩]

/-- Initial loop state for the C8 witness. -/
def s0W : LoopState := ⟨0, false⟩

/-! ## Claim C1: watchdog pet decision -/

/-- Claim C1 counterexample.  The claim states that with
`wakeOnPowerReconnect = true` and `waitingForReset = true` and the power-loss
line still asserted (power absent, pin LOW) the handler must NOT pet, and
that with the line deasserted (power restored, pin HIGH) it MUST pet.  The
code does the exact opposite on both inputs: it pets while power is absent
and withholds the pet once power is restored. -/
theorem C1_counterexample :
    am_watchdog_isr_pets true true false = true
    ∧ am_watchdog_isr_pets true true true = false := by
  constructor <;> rfl

/-- Claim C1 (amended): on each watchdog interrupt the handler pets the
watchdog unless all three conditions hold — the wake-on-power-reconnect flag
is enabled, the waiting-for-reset flag is set, and the power-loss line reads
HIGH (power restored).  In particular, with both flags set the handler pets
while the line reads LOW (power still absent) and withholds the pet once the
line reads HIGH, letting the watchdog reset the system. -/
theorem C1_watchdog_pet_rule (w r p : Bool) :
    am_watchdog_isr_pets w r p = !(w && r && p)
    ∧ am_watchdog_isr_pets true true false = true
    ∧ am_watchdog_isr_pets true true true = false := by
  refine ⟨?_, rfl, rfl⟩
  cases w <;> cases r <;> cases p <;> rfl

/-! ## Claim C2: the sleep decision -/

/-- Claim C2: provided the `uint64_t` sum `measurementStartTime +
usLoggingDuration / 1000` does not wrap, the scheduler decides to sleep
exactly when the sleep duration is positive and `timeNow` strictly exceeds
the window start plus the active (logging) duration in milliseconds; and
with a zero sleep duration the sleep decision is never taken, whatever the
active duration and the current time (continuous-logging mode). -/
theorem C2_shouldSleepNow_iff (st st0 : Settings) (mst now mst0 now0 : Nat)
    (hnw : mst + st.usLoggingDuration / 1000 < UINT64_MOD)
    (hd0 : st0.usSleepDuration = 0) :
    (shouldSleepNow st mst now = true
      ↔ 0 < st.usSleepDuration ∧ mst + st.usLoggingDuration / 1000 < now)
    ∧ shouldSleepNow st0 mst0 now0 = false := by
  constructor
  · simp [shouldSleepNow, Nat.mod_eq_of_lt hnw]
  · simp [shouldSleepNow, hd0]

/-- Witness for C2 at the spec scenario: `activeDurationMs = 10000`,
`sleepDurationMs = 5000`, window start 0; at `timeNow = 10001` the sleep
decision fires, and with sleep duration 0 it never does. -/
theorem C2_witness :
    (0 + scenarioSettings.usLoggingDuration / 1000 < UINT64_MOD
      ∧ continuousSettings.usSleepDuration = 0)
    ∧ ((shouldSleepNow scenarioSettings 0 10001 = true
        ↔ 0 < scenarioSettings.usSleepDuration
          ∧ 0 + scenarioSettings.usLoggingDuration / 1000 < 10001)
      ∧ shouldSleepNow continuousSettings 0 999999999 = false) :=
  ⟨⟨by decide, by decide⟩,
    C2_shouldSleepNow_iff scenarioSettings continuousSettings 0 10001 0 999999999
      (by decide) (by decide)⟩

/-! ## Claim C3: the post-sleep window advance -/

/-- Claim C3: one application of the window-advance step moves
`measurementStartTime` forward by exactly one full cycle (active plus sleep
duration, in milliseconds), provided the `uint64_t` sum does not wrap; the
new value does not depend on the time at which sleep was actually entered
(any two trigger times give the same advanced window start); and in the
spec scenario (active 10000 ms, sleep 5000 ms, old start 0) the new start is
15000, not 10001. -/
theorem C3_window_advance (st : Settings) (mst t1 t2 : Nat) (b : Bool)
    (hnw : mst + st.usLoggingDuration / 1000 + st.usSleepDuration / 1000 < UINT64_MOD)
    (h1 : shouldSleepNow st mst t1 = true) (h2 : shouldSleepNow st mst t2 = true) :
    nextMeasurementStartTime st mst
        = mst + st.usLoggingDuration / 1000 + st.usSleepDuration / 1000
    ∧ (loopBodyS st ⟨t1, id, id⟩ ⟨mst, b⟩).1.measurementStartTime
        = nextMeasurementStartTime st mst
    ∧ (loopBodyS st ⟨t2, id, id⟩ ⟨mst, b⟩).1.measurementStartTime
        = nextMeasurementStartTime st mst
    ∧ nextMeasurementStartTime scenarioSettings 0 = 15000
    ∧ (15000 : Nat) ≠ 10001 := by
  refine ⟨?_, ?_, ?_, by decide, by decide⟩
  · simpa [nextMeasurementStartTime] using Nat.mod_eq_of_lt hnw
  · simp [loopBodyS, h1]
  · simp [loopBodyS, h2]

/-- Witness for C3 at the spec scenario, with two different sleep-entry
times (10001 and 99999) both triggering the sleep decision. -/
theorem C3_witness :
    (0 + scenarioSettings.usLoggingDuration / 1000
        + scenarioSettings.usSleepDuration / 1000 < UINT64_MOD
      ∧ shouldSleepNow scenarioSettings 0 10001 = true
      ∧ shouldSleepNow scenarioSettings 0 99999 = true)
    ∧ (nextMeasurementStartTime scenarioSettings 0
        = 0 + scenarioSettings.usLoggingDuration / 1000
          + scenarioSettings.usSleepDuration / 1000
      ∧ (loopBodyS scenarioSettings ⟨10001, id, id⟩ ⟨0, false⟩).1.measurementStartTime
          = nextMeasurementStartTime scenarioSettings 0
      ∧ (loopBodyS scenarioSettings ⟨99999, id, id⟩ ⟨0, false⟩).1.measurementStartTime
          = nextMeasurementStartTime scenarioSettings 0) :=
  ⟨⟨by decide, by decide, by decide⟩,
    (C3_window_advance scenarioSettings 0 10001 99999 false
      (by decide) (by decide) (by decide)).1,
    (C3_window_advance scenarioSettings 0 10001 99999 false
      (by decide) (by decide) (by decide)).2.1,
    (C3_window_advance scenarioSettings 0 10001 99999 false
      (by decide) (by decide) (by decide)).2.2.1⟩

/-! ## Claim C5: timestamp writes gated on RTC sync -/

/-- Claim C5: with `rtcHasBeenSyncd = false` each of the three timestamp
operations leaves the file metadata completely unchanged; with
`rtcHasBeenSyncd = true` each stamps exactly its own timestamp field(s) with
the current RTC time and leaves the remaining fields unchanged. -/
theorem C5_timestamps_gated_on_sync (rtc : RtcTime) (f : FileMeta) :
    updateDataFileCreate false rtc f = f
    ∧ updateDataFileAccess false rtc f = f
    ∧ updateDataFileWrite false rtc f = f
    ∧ updateDataFileCreate true rtc f = { f with createTs := some (rtcStamp rtc) }
    ∧ updateDataFileAccess true rtc f
        = { f with accessTs := some (rtcStamp rtc), writeTs := some (rtcStamp rtc) }
    ∧ updateDataFileWrite true rtc f = { f with writeTs := some (rtcStamp rtc) } := by
  refine ⟨rfl, rfl, rfl, rfl, rfl, rfl⟩

/-! ## Claim C6: filename allocation and append-create open -/

/-- Claim C6: when storage is online and logging enabled, `beginDataLogging`
records `chosenName` — a freshly allocated name exactly when no name is
recorded yet or `openNewLogFile` is set, the previous name otherwise —
issues exactly one `open` request, for that name in append-create mode, so
that the opened file keeps its previously written bytes (or is created
empty), every other file is untouched, and logging comes online. -/
theorem C6_ensure_open (st : Settings) (findNext : Nat → String) (fs : FS)
    (s : LogMgrState) (n : String)
    (hsd : s.onlineMicroSD = true) (hlog : st.logData = true)
    (hn : n ≠ chosenName st findNext s) :
    (beginDataLogging st findNext true fs s).1.gnssDataFileName = chosenName st findNext s
    ∧ (chosenName st findNext s
        = if s.gnssDataFileName.length == 0 || st.openNewLogFile then
            findNext st.nextDataLogNumber
          else s.gnssDataFileName)
    ∧ (beginDataLogging st findNext true fs s).2.2
        = [⟨chosenName st findNext s, OpenMode.appendCreate⟩]
    ∧ (beginDataLogging st findNext true fs s).2.1 (chosenName st findNext s)
        = some ((fs (chosenName st findNext s)).getD [])
    ∧ (beginDataLogging st findNext true fs s).2.1 n = fs n
    ∧ (beginDataLogging st findNext true fs s).1.onlineDataLogging = true := by
  refine ⟨?_, rfl, ?_, ?_, ?_, ?_⟩ <;>
    simp [beginDataLogging, fsOpen, hsd, hlog, hn]

/-- Witness for C6: empty recorded name, rotate flag clear, fresh allocator
returning a distinct name, empty filesystem. -/
theorem C6_witness :
    ((⟨"", true, false⟩ : LogMgrState).onlineMicroSD = true
      ∧ scenarioSettings.logData = true
      ∧ "other" ≠ chosenName scenarioSettings (fun _ => "dataLog0001") ⟨"", true, false⟩)
    ∧ ((beginDataLogging scenarioSettings (fun _ => "dataLog0001") true
          (fun _ => none) ⟨"", true, false⟩).1.gnssDataFileName
        = chosenName scenarioSettings (fun _ => "dataLog0001") ⟨"", true, false⟩
      ∧ (chosenName scenarioSettings (fun _ => "dataLog0001") ⟨"", true, false⟩
          = if ("" : String).length == 0 || scenarioSettings.openNewLogFile then
              (fun _ : Nat => "dataLog0001") scenarioSettings.nextDataLogNumber
            else "")
      ∧ (beginDataLogging scenarioSettings (fun _ => "dataLog0001") true
          (fun _ => none) ⟨"", true, false⟩).2.2
        = [⟨chosenName scenarioSettings (fun _ => "dataLog0001") ⟨"", true, false⟩,
            OpenMode.appendCreate⟩]
      ∧ (beginDataLogging scenarioSettings (fun _ => "dataLog0001") true
          (fun _ => none) ⟨"", true, false⟩).2.1
            (chosenName scenarioSettings (fun _ => "dataLog0001") ⟨"", true, false⟩)
        = some (((fun _ : String => (none : Option (List Nat)))
            (chosenName scenarioSettings (fun _ => "dataLog0001") ⟨"", true, false⟩)).getD [])
      ∧ (beginDataLogging scenarioSettings (fun _ => "dataLog0001") true
          (fun _ => none) ⟨"", true, false⟩).2.1 "other"
        = (fun _ : String => (none : Option (List Nat))) "other"
      ∧ (beginDataLogging scenarioSettings (fun _ => "dataLog0001") true
          (fun _ => none) ⟨"", true, false⟩).1.onlineDataLogging = true) :=
  ⟨⟨rfl, rfl, by decide⟩,
    C6_ensure_open scenarioSettings (fun _ => "dataLog0001") (fun _ => none)
      ⟨"", true, false⟩ "other" rfl rfl (by decide)⟩

/-! ## Claim C7: storage errors disable logging without retry or halt -/

/-- Claim C7: with storage offline `beginDataLogging` sets
`online.dataLogging` false, issues no `open` request at all and leaves the
filesystem untouched; with storage online but the `open` call failing it
sets `online.dataLogging` false after exactly one `open` attempt (no retry)
and leaves the filesystem untouched; in both cases it returns normally with
the rest of the state intact.  `beginSD` likewise makes at most two
`sd.begin` attempts, and when both fail it sets `online.microSD` false and
returns. -/
theorem C7_errors_disable_logging (st st2 : Settings) (findNext : Nat → String)
    (fs fs2 : FS) (s s2 : LogMgrState) (e s1b s2b c : Bool)
    (hsd : s.onlineMicroSD = false)
    (h2sd : s2.onlineMicroSD = true) (h2log : st2.logData = true) :
    beginDataLogging st findNext true fs s = ({ s with onlineDataLogging := false }, fs, [])
    ∧ (beginDataLogging st2 findNext false fs2 s2).1.onlineDataLogging = false
    ∧ (beginDataLogging st2 findNext false fs2 s2).2.2.length = 1
    ∧ (beginDataLogging st2 findNext false fs2 s2).2.1 = fs2
    ∧ (beginDataLogging st2 findNext false fs2 s2).1.gnssDataFileName
        = chosenName st2 findNext s2
    ∧ beginSDOnline true false false c = (false, 2)
    ∧ (beginSDOnline e s1b s2b c).2 ≤ 2 := by
  refine ⟨?_, ?_, ?_, ?_, ?_, ?_, ?_⟩
  · simp [beginDataLogging, hsd]
  · simp [beginDataLogging, h2sd, h2log]
  · simp [beginDataLogging, h2sd, h2log]
  · simp [beginDataLogging, h2sd, h2log]
  · simp [beginDataLogging, h2sd, h2log]
  · rfl
  · cases e <;> cases s1b <;> cases s2b <;> cases c <;> simp [beginSDOnline]

/-- Witness for C7: storage offline in one state, open failure in the
other. -/
theorem C7_witness :
    ((⟨"dataLog0001", false, true⟩ : LogMgrState).onlineMicroSD = false
      ∧ (⟨"dataLog0001", true, true⟩ : LogMgrState).onlineMicroSD = true
      ∧ scenarioSettings.logData = true)
    ∧ (beginDataLogging scenarioSettings (fun _ => "dataLog0002") true
          (fun _ => none) ⟨"dataLog0001", false, true⟩
        = (({ (⟨"dataLog0001", false, true⟩ : LogMgrState) with
              onlineDataLogging := false }), (fun _ => none), [])
      ∧ (beginDataLogging scenarioSettings (fun _ => "dataLog0002") false
          (fun _ => none) ⟨"dataLog0001", true, true⟩).1.onlineDataLogging = false
      ∧ (beginDataLogging scenarioSettings (fun _ => "dataLog0002") false
          (fun _ => none) ⟨"dataLog0001", true, true⟩).2.2.length = 1
      ∧ (beginDataLogging scenarioSettings (fun _ => "dataLog0002") false
          (fun _ => none) ⟨"dataLog0001", true, true⟩).2.1 = (fun _ => none)
      ∧ (beginDataLogging scenarioSettings (fun _ => "dataLog0002") false
          (fun _ => none) ⟨"dataLog0001", true, true⟩).1.gnssDataFileName
        = chosenName scenarioSettings (fun _ => "dataLog0002") ⟨"dataLog0001", true, true⟩
      ∧ beginSDOnline true false false true = (false, 2)
      ∧ (beginSDOnline true false false true).2 ≤ 2) :=
  ⟨⟨rfl, rfl, rfl⟩,
    C7_errors_disable_logging scenarioSettings scenarioSettings (fun _ => "dataLog0002")
      (fun _ => none) (fun _ => none) ⟨"dataLog0001", false, true⟩
      ⟨"dataLog0001", true, true⟩ true false false true rfl rfl rfl⟩

/-- Double toggle is the identity on the globals. -/
theorem toggleWake_toggleWake (g : Globals) : toggleWake (toggleWake g) = g := by
  cases g with
  | mk s v => cases s; simp [toggleWake]

/-- `menuPower` never writes the volatile `wakeOnPowerReconnect` copy. -/
theorem menuPower_vol (l : List Nat) (g : Globals) :
    (menuPower l g).wakeOnPowerReconnectVol = g.wakeOnPowerReconnectVol := by
  induction l generalizing g with
  | nil => rfl
  | cons c rest ih =>
    simp only [menuPower]
    split
    · rw [ih]; rfl
    · split
      · rfl
      · split
        · rfl
        · exact ih g

/-! ## Claim C9: menu option '1' toggling and exits -/

/-- Claim C9: in the power-options menu, input '1' toggles
`settings.wakeOnPowerReconnect` (and nothing else in `settings`), so two
consecutive '1' inputs restore the original value; 'x' (120) or a read
timeout (255, or an exhausted input stream) exits immediately leaving every
settings field unchanged from its value at that point; and any other
unhandled input changes no settings field. -/
theorem C9_menuPower_toggle (g : Globals) (c : Nat) (l : List Nat)
    (hc1 : c ≠ 49) (hc2 : c ≠ 120) (hc3 : c ≠ 255) :
    menuPower (49 :: 49 :: l) g = menuPower l g
    ∧ menuPower (49 :: l) g = menuPower l (toggleWake g)
    ∧ (toggleWake g).settings.wakeOnPowerReconnect = !g.settings.wakeOnPowerReconnect
    ∧ (toggleWake g).settings.powerDownQwiicBusBetweenReads
        = g.settings.powerDownQwiicBusBetweenReads
    ∧ (toggleWake g).settings.enablePwrLedDuringSleep = g.settings.enablePwrLedDuringSleep
    ∧ (toggleWake g).settings.enableSD = g.settings.enableSD
    ∧ (toggleWake g).settings.logData = g.settings.logData
    ∧ (toggleWake g).settings.openNewLogFile = g.settings.openNewLogFile
    ∧ (toggleWake g).settings.nextDataLogNumber = g.settings.nextDataLogNumber
    ∧ (toggleWake g).settings.usSleepDuration = g.settings.usSleepDuration
    ∧ (toggleWake g).settings.usLoggingDuration = g.settings.usLoggingDuration
    ∧ menuPower (120 :: l) g = g
    ∧ menuPower (255 :: l) g = g
    ∧ menuPower [] g = g
    ∧ menuPower (c :: l) g = menuPower l g := by
  refine ⟨?_, ?_, rfl, rfl, rfl, rfl, rfl, rfl, rfl, rfl, rfl, ?_, ?_, rfl, ?_⟩
  · simp [menuPower, toggleWake_toggleWake]
  · simp [menuPower]
  · simp [menuPower]
  · simp [menuPower]
  · simp [menuPower, hc1, hc2, hc3]

/-- Witness for C9 with the unhandled input '2' (50, compiled out on this
hardware version). -/
theorem C9_witness :
    ((50 : Nat) ≠ 49 ∧ (50 : Nat) ≠ 120 ∧ (50 : Nat) ≠ 255)
    ∧ (menuPower [49, 49] g0 = menuPower [] g0
      ∧ menuPower [49] g0 = menuPower [] (toggleWake g0)
      ∧ (toggleWake g0).settings.wakeOnPowerReconnect
          = !g0.settings.wakeOnPowerReconnect
      ∧ (toggleWake g0).settings.powerDownQwiicBusBetweenReads
          = g0.settings.powerDownQwiicBusBetweenReads
      ∧ (toggleWake g0).settings.enablePwrLedDuringSleep
          = g0.settings.enablePwrLedDuringSleep
      ∧ (toggleWake g0).settings.enableSD = g0.settings.enableSD
      ∧ (toggleWake g0).settings.logData = g0.settings.logData
      ∧ (toggleWake g0).settings.openNewLogFile = g0.settings.openNewLogFile
      ∧ (toggleWake g0).settings.nextDataLogNumber = g0.settings.nextDataLogNumber
      ∧ (toggleWake g0).settings.usSleepDuration = g0.settings.usSleepDuration
      ∧ (toggleWake g0).settings.usLoggingDuration = g0.settings.usLoggingDuration
      ∧ menuPower [120] g0 = g0
      ∧ menuPower [255] g0 = g0
      ∧ menuPower [] g0 = g0
      ∧ menuPower [50] g0 = menuPower [] g0) :=
  ⟨⟨by decide, by decide, by decide⟩,
    C9_menuPower_toggle g0 50 [] (by decide) (by decide) (by decide)⟩

/-! ## Claim C10: the toggle leaves the ISR's volatile copy stale -/

/-- Claim C10: no `menuPower` run writes the volatile global
`wakeOnPowerReconnect` read by `am_watchdog_isr`; hence after toggling
option '1' the settings copy and the volatile copy disagree whenever they
agreed before, and the ISR's pet decision is computed from the unchanged
volatile copy. -/
theorem C10_menuPower_volatile_stale (g : Globals) (l : List Nat) (w p : Bool)
    (heq : g.settings.wakeOnPowerReconnect = g.wakeOnPowerReconnectVol) :
    (menuPower l g).wakeOnPowerReconnectVol = g.wakeOnPowerReconnectVol
    ∧ (menuPower (49 :: l) g).wakeOnPowerReconnectVol = g.wakeOnPowerReconnectVol
    ∧ (toggleWake g).settings.wakeOnPowerReconnect ≠ (toggleWake g).wakeOnPowerReconnectVol
    ∧ am_watchdog_isr_pets (menuPower l g).wakeOnPowerReconnectVol w p
        = am_watchdog_isr_pets g.wakeOnPowerReconnectVol w p := by
  refine ⟨menuPower_vol l g, menuPower_vol (49 :: l) g, ?_, ?_⟩
  · simp only [toggleWake, heq]
    cases g.wakeOnPowerReconnectVol <;> simp
  · rw [menuPower_vol l g]

/-- Witness for C10 with the settings copy and volatile copy initially in
agreement. -/
theorem C10_witness :
    (g0.settings.wakeOnPowerReconnect = g0.wakeOnPowerReconnectVol)
    ∧ ((menuPower [49] g0).wakeOnPowerReconnectVol = g0.wakeOnPowerReconnectVol
      ∧ (menuPower (49 :: [49]) g0).wakeOnPowerReconnectVol = g0.wakeOnPowerReconnectVol
      ∧ (toggleWake g0).settings.wakeOnPowerReconnect ≠ (toggleWake g0).wakeOnPowerReconnectVol
      ∧ am_watchdog_isr_pets (menuPower [49] g0).wakeOnPowerReconnectVol true false
          = am_watchdog_isr_pets g0.wakeOnPowerReconnectVol true false) :=
  ⟨by decide, C10_menuPower_volatile_stale g0 [49] true false (by decide)⟩

/-- Checkpoint result when the flag still reads false. -/
theorem checkpoint_ok (m : Nat) (s : CkState) (h : s.idx < m) :
    checkpoint m s = .ok { s with idx := s.idx + 1 } := by
  simp [checkpoint, lowPowerRead, Nat.not_le.mpr h]

/-- Checkpoint result when the flag reads true: the power-down path. -/
theorem checkpoint_err (m : Nat) (s : CkState) (h : m ≤ s.idx) :
    checkpoint m s = .error (emit .powerDown { s with idx := s.idx + 1 }) := by
  simp [checkpoint, lowPowerRead, h]

/-- A run of `n` checkpoints that never sees the flag. -/
theorem ckLoop_ok (m : Nat) :
    ∀ (n : Nat) (s : CkState), s.idx + n ≤ m →
      ckLoop m n s = .ok ⟨s.idx + n, s.trace⟩ := by
  intro n
  induction n with
  | zero => intro s h; cases s; simp [ckLoop]
  | succ k ih =>
    intro s h
    rw [ckLoop, checkpoint_ok m s (by omega)]
    change ckLoop m k ⟨s.idx + 1, s.trace⟩ = _
    rw [ih ⟨s.idx + 1, s.trace⟩ (by show s.idx + 1 + k ≤ m; omega)]
    simp [CkState.mk.injEq]
    omega

/-- A run of `n` checkpoints during which the flag becomes set: it enters
the power-down path at the first true read and performs nothing further. -/
theorem ckLoop_err (m : Nat) :
    ∀ (n : Nat) (s : CkState), s.idx ≤ m → m < s.idx + n →
      ckLoop m n s = .error ⟨m + 1, s.trace ++ [Event.powerDown]⟩ := by
  intro n
  induction n with
  | zero => intro s h1 h2; omega
  | succ k ih =>
    intro s h1 h2
    rcases Nat.lt_or_ge s.idx m with hlt | hge
    · rw [ckLoop, checkpoint_ok m s hlt]
      exact ih { s with idx := s.idx + 1 } (by simpa using hlt) (by simp; omega)
    · have hm : m = s.idx := by omega
      rw [ckLoop, checkpoint_err m s (by omega)]
      simp [emit, hm]

/-- `beginSDck` either completes, having made `sdReads p` flag reads, or
enters the power-down path, having emitted only its own phase action. -/
theorem beginSDck_eq (p : SdParams) (m : Nat) (s : CkState) (h : s.idx ≤ m) :
    beginSDck p m s =
      if s.idx + sdReads p ≤ m then .ok ⟨s.idx + sdReads p, s.trace ++ [Event.beginSD]⟩
      else .error ⟨m + 1, s.trace ++ [Event.beginSD, Event.powerDown]⟩ := by
  have hemit : (emit Event.beginSD s).idx = s.idx := rfl
  cases hE : p.enableSD with
  | false =>
    have hr : sdReads p = 0 := by simp [sdReads, hE]
    rw [beginSDck, hE]
    simp only [Bool.false_eq_true, if_false, hr, Nat.add_zero, if_pos h]
    cases s; rfl
  | true =>
    cases h1 : p.sdBegin1Ok with
    | true =>
      have hr : sdReads p = 10 := by simp [sdReads, hE, h1]
      rw [beginSDck, hE]
      simp only [if_true, hr]
      rcases le_or_lt (s.idx + 10) m with hok | herr
      · rw [show (emit Event.beginSD s) = { s with trace := s.trace ++ [Event.beginSD] } from rfl]
        rw [ckLoop_ok m 10 { s with trace := s.trace ++ [Event.beginSD] } (by simpa using hok)]
        simp [andThen, h1, if_pos hok]
      · rw [show (emit Event.beginSD s) = { s with trace := s.trace ++ [Event.beginSD] } from rfl]
        rw [ckLoop_err m 10 { s with trace := s.trace ++ [Event.beginSD] } (by simpa using h)
          (by simpa using herr)]
        simp [andThen, if_neg (by omega : ¬ s.idx + 10 ≤ m)]
    | false =>
      have hr : sdReads p = 260 := by simp [sdReads, hE, h1]
      rw [beginSDck, hE]
      simp only [if_true, hr]
      rw [show (emit Event.beginSD s) = { s with trace := s.trace ++ [Event.beginSD] } from rfl]
      rcases le_or_lt (s.idx + 260) m with hok | herr
      · rw [ckLoop_ok m 10 { s with trace := s.trace ++ [Event.beginSD] } (by simp; omega)]
        simp only [andThen, h1, Bool.false_eq_true, if_false]
        rw [ckLoop_ok m 250 ⟨s.idx + 10, s.trace ++ [Event.beginSD]⟩ (by simp; omega)]
        simp [if_pos hok, CkState.mk.injEq]
      · rcases le_or_lt (s.idx + 10) m with h10 | h10
        · rw [ckLoop_ok m 10 { s with trace := s.trace ++ [Event.beginSD] } (by simpa using h10)]
          simp only [andThen, h1, Bool.false_eq_true, if_false]
          rw [ckLoop_err m 250 ⟨s.idx + 10, s.trace ++ [Event.beginSD]⟩ (by simpa using h10)
            (by simp; omega)]
          simp [if_neg (by omega : ¬ s.idx + 260 ≤ m)]
        · rw [ckLoop_err m 10 { s with trace := s.trace ++ [Event.beginSD] } (by simpa using h)
            (by simp; omega)]
          simp [andThen, if_neg (by omega : ¬ s.idx + 260 ≤ m)]

/-- Characterization of a checkpointed phase sequence: either every
checkpoint reads false and all phase actions run, or the first true read
enters the power-down path right after the actions of its own phase, and no
later phase's actions run. -/
theorem runPhases_char (m : Nat) :
    ∀ (l : List (List Event)) (s : CkState), s.idx ≤ m →
      runPhases m l s =
        if s.idx + l.length ≤ m then .ok ⟨s.idx + l.length, s.trace ++ l.flatten⟩
        else .error ⟨m + 1,
          s.trace ++ ((l.take (m - s.idx + 1)).flatten ++ [Event.powerDown])⟩ := by
  intro l
  induction l with
  | nil =>
    intro s h
    rw [if_pos (by simpa using h)]
    cases s; simp [runPhases]
  | cons evs rest ih =>
    intro s h
    rcases Nat.lt_or_ge s.idx m with hlt | hge
    · rw [runPhases, show emits evs s = { s with trace := s.trace ++ evs } from rfl,
        checkpoint_ok m { s with trace := s.trace ++ evs } (by simpa using hlt)]
      simp only [andThen]
      rw [ih ⟨s.idx + 1, s.trace ++ evs⟩ (by show s.idx + 1 ≤ m; omega)]
      simp only []
      rcases le_or_lt (s.idx + (rest.length + 1)) m with hok | hdie
      · rw [if_pos (by show s.idx + 1 + rest.length ≤ m; omega),
          if_pos (by simpa using hok)]
        simp [CkState.mk.injEq, List.append_assoc]
        omega
      · rw [if_neg (by show ¬ s.idx + 1 + rest.length ≤ m; omega),
          if_neg (by simp only [List.length_cons]; omega)]
        have htake : m - s.idx + 1 = (m - (s.idx + 1) + 1) + 1 := by omega
        rw [htake, List.take_succ_cons]
        simp [List.append_assoc]
    · have hm : m = s.idx := by omega
      rw [runPhases, show emits evs s = { s with trace := s.trace ++ evs } from rfl,
        checkpoint_err m { s with trace := s.trace ++ evs } (by simpa using hge)]
      rw [if_neg (by simp only [List.length_cons]; omega)]
      have htake : m - s.idx + 1 = 1 := by omega
      rw [htake]
      simp [andThen, emit, hm, List.append_assoc]

/-- Master characterization of a `setup` run in which the power-loss flag
becomes set at checkpoint read `m` (with the boot pin check passing): the
run performs exactly the actions up to and including the phase whose
checkpoint observed the flag, then enters the power-down path, and nothing
after it. -/
theorem setupRun_dies (p : SdParams) (m : Nat) (hm : m ≤ sdReads p + 6) :
    setupRun false p m = ⟨m + 1, setupPre p m ++ [Event.powerDown]⟩ := by
  unfold setupRun
  simp only [Bool.false_eq_true, if_false, emits, List.nil_append, List.append_nil,
    List.cons_append]
  rw [beginSDck_eq p m ⟨0, [Event.startWatchdog, Event.powerLEDOn, Event.statLEDOn,
      Event.serialBegin, Event.spiBegin]⟩ (Nat.zero_le m)]
  rcases Nat.lt_or_ge m (sdReads p) with hlt | hge
  · rw [if_neg (by show ¬ (0:Nat) + sdReads p ≤ m; omega)]
    simp only [andThen]
    have h0 : m - sdReads p = 0 := by omega
    simp [setupPre, h0, setupPhases]
  · rw [if_pos (by show (0:Nat) + sdReads p ≤ m; omega)]
    simp only [andThen]
    rw [runPhases_char m setupPhases ⟨(0:Nat) + sdReads p,
      [Event.startWatchdog, Event.powerLEDOn, Event.statLEDOn, Event.serialBegin,
        Event.spiBegin] ++ [Event.beginSD]⟩ (by show (0:Nat) + sdReads p ≤ m; omega)]
    rw [if_neg (by simp only [setupPhases, List.length_cons, List.length_nil]; omega)]
    simp only [andThen]
    have hsub : m - ((0:Nat) + sdReads p) = m - sdReads p := by omega
    simp [setupPre, hsub, List.append_assoc]

/-! ## Claim C4: power-loss checkpoints short-circuit into power-down -/

/-- Claim C4: (boot) if the power-loss line reads LOW at startup even though
no falling-edge interrupt fired, `setup` enters the power-down path
immediately — the same terminal action the interrupt would cause — before
any initialization phase runs; and (checkpoints) whenever the `lowPowerSeen`
flag is set by the time a checkpoint reads it (`mᵢ` counts the false reads
before the flag is seen), the power-down path is entered at that checkpoint
and the next phase's work never runs — for the checkpoints guarding
`loadSettings`, `beginQwiic`, `beginDataLogging`, `disableIMU`,
`beginSensors` and the end of `setup`, and for the two `loop` checkpoints
guarding `storeData` and the sleep sequence.  In every case the power-down
entry is the final action of the run. -/
theorem C4_power_loss_checkpoints (p : SdParams) (sa sn : Bool)
    (m1 m2 m3 m4 m5 m6 : Nat)
    (h1 : m1 ≤ sdReads p) (h2 : m2 ≤ sdReads p + 2) (h3 : m3 ≤ sdReads p + 3)
    (h4 : m4 ≤ sdReads p + 4) (h5 : m5 ≤ sdReads p + 5) (h6 : m6 ≤ sdReads p + 6) :
    (setupRun true p m1
        = ⟨0, [.startWatchdog, .powerLEDOn, .statLEDOn, .powerDown]⟩
      ∧ Event.beginSD ∉ (setupRun true p m1).trace)
    ∧ (Event.loadSettings ∉ (setupRun false p m1).trace
      ∧ Event.powerDown ∈ (setupRun false p m1).trace)
    ∧ (Event.beginQwiic ∉ (setupRun false p m2).trace
      ∧ Event.powerDown ∈ (setupRun false p m2).trace)
    ∧ (Event.beginDataLogging ∉ (setupRun false p m3).trace
      ∧ Event.powerDown ∈ (setupRun false p m3).trace)
    ∧ (Event.disableIMU ∉ (setupRun false p m4).trace
      ∧ Event.powerDown ∈ (setupRun false p m4).trace)
    ∧ (Event.beginSensors ∉ (setupRun false p m5).trace
      ∧ Event.powerDown ∈ (setupRun false p m5).trace)
    ∧ (Event.statLEDOff ∉ (setupRun false p m6).trace
      ∧ setupRun false p m6 = ⟨m6 + 1, setupPre p m6 ++ [Event.powerDown]⟩)
    ∧ (Event.storeData ∉ (loopRunCk sa sn 0).trace
      ∧ Event.powerDown ∈ (loopRunCk sa sn 0).trace)
    ∧ (Event.goToSleep ∉ (loopRunCk sa sn 1).trace
      ∧ Event.storeData ∈ (loopRunCk sa sn 1).trace
      ∧ Event.powerDown ∈ (loopRunCk sa sn 1).trace) := by
  refine ⟨⟨rfl, ?_⟩, ?_, ?_, ?_, ?_, ?_, ?_, ?_, ?_⟩
  · rw [show setupRun true p m1
        = (⟨0, [Event.startWatchdog, Event.powerLEDOn, Event.statLEDOn,
            Event.powerDown]⟩ : CkState) from rfl]
    decide
  · have hc : m1 - sdReads p = 0 := by omega
    rw [setupRun_dies p m1 (by omega)]
    simp [setupPre, setupPhases, hc]
  · have hc : m2 - sdReads p = 0 ∨ m2 - sdReads p = 1 ∨ m2 - sdReads p = 2 := by omega
    rcases hc with hc | hc | hc <;>
      (rw [setupRun_dies p m2 (by omega)]; simp [setupPre, setupPhases, hc])
  · have hc : m3 - sdReads p = 0 ∨ m3 - sdReads p = 1 ∨ m3 - sdReads p = 2
        ∨ m3 - sdReads p = 3 := by omega
    rcases hc with hc | hc | hc | hc <;>
      (rw [setupRun_dies p m3 (by omega)]; simp [setupPre, setupPhases, hc])
  · have hc : m4 - sdReads p = 0 ∨ m4 - sdReads p = 1 ∨ m4 - sdReads p = 2
        ∨ m4 - sdReads p = 3 ∨ m4 - sdReads p = 4 := by omega
    rcases hc with hc | hc | hc | hc | hc <;>
      (rw [setupRun_dies p m4 (by omega)]; simp [setupPre, setupPhases, hc])
  · have hc : m5 - sdReads p = 0 ∨ m5 - sdReads p = 1 ∨ m5 - sdReads p = 2
        ∨ m5 - sdReads p = 3 ∨ m5 - sdReads p = 4 ∨ m5 - sdReads p = 5 := by omega
    rcases hc with hc | hc | hc | hc | hc | hc <;>
      (rw [setupRun_dies p m5 (by omega)]; simp [setupPre, setupPhases, hc])
  · have hc : m6 - sdReads p = 0 ∨ m6 - sdReads p = 1 ∨ m6 - sdReads p = 2
        ∨ m6 - sdReads p = 3 ∨ m6 - sdReads p = 4 ∨ m6 - sdReads p = 5
        ∨ m6 - sdReads p = 6 := by omega
    refine ⟨?_, setupRun_dies p m6 (by omega)⟩
    rcases hc with hc | hc | hc | hc | hc | hc | hc <;>
      (rw [setupRun_dies p m6 (by omega)]; simp [setupPre, setupPhases, hc])
  · cases sa <;> cases sn <;> exact ⟨by decide, by decide⟩
  · cases sa <;> cases sn <;> exact ⟨by decide, by decide, by decide⟩

/-- Witness for C4 with SD enabled and the first `sd.begin` succeeding
(`sdReads = 10`), the flag arriving at each guarded checkpoint in turn. -/
theorem C4_witness :
    ((0 ≤ sdReads ⟨true, true⟩) ∧ (12 ≤ sdReads ⟨true, true⟩ + 2)
      ∧ (13 ≤ sdReads ⟨true, true⟩ + 3) ∧ (14 ≤ sdReads ⟨true, true⟩ + 4)
      ∧ (15 ≤ sdReads ⟨true, true⟩ + 5) ∧ (16 ≤ sdReads ⟨true, true⟩ + 6))
    ∧ ((setupRun true ⟨true, true⟩ 0
          = ⟨0, [.startWatchdog, .powerLEDOn, .statLEDOn, .powerDown]⟩
        ∧ Event.beginSD ∉ (setupRun true ⟨true, true⟩ 0).trace)
      ∧ (Event.loadSettings ∉ (setupRun false ⟨true, true⟩ 0).trace
        ∧ Event.powerDown ∈ (setupRun false ⟨true, true⟩ 0).trace)
      ∧ (Event.beginQwiic ∉ (setupRun false ⟨true, true⟩ 12).trace
        ∧ Event.powerDown ∈ (setupRun false ⟨true, true⟩ 12).trace)
      ∧ (Event.beginDataLogging ∉ (setupRun false ⟨true, true⟩ 13).trace
        ∧ Event.powerDown ∈ (setupRun false ⟨true, true⟩ 13).trace)
      ∧ (Event.disableIMU ∉ (setupRun false ⟨true, true⟩ 14).trace
        ∧ Event.powerDown ∈ (setupRun false ⟨true, true⟩ 14).trace)
      ∧ (Event.beginSensors ∉ (setupRun false ⟨true, true⟩ 15).trace
        ∧ Event.powerDown ∈ (setupRun false ⟨true, true⟩ 15).trace)
      ∧ (Event.statLEDOff ∉ (setupRun false ⟨true, true⟩ 16).trace
        ∧ setupRun false ⟨true, true⟩ 16
            = ⟨16 + 1, setupPre ⟨true, true⟩ 16 ++ [Event.powerDown]⟩)
      ∧ (Event.storeData ∉ (loopRunCk true true 0).trace
        ∧ Event.powerDown ∈ (loopRunCk true true 0).trace)
      ∧ (Event.goToSleep ∉ (loopRunCk true true 1).trace
        ∧ Event.storeData ∈ (loopRunCk true true 1).trace
        ∧ Event.powerDown ∈ (loopRunCk true true 1).trace)) :=
  ⟨⟨by decide, by decide, by decide, by decide, by decide, by decide⟩,
    C4_power_loss_checkpoints ⟨true, true⟩ true true 0 12 13 14 15 16
      (by decide) (by decide) (by decide) (by decide) (by decide) (by decide)⟩

/-- An iteration that took the sleep branch leaves `rtcNeedsSync` true. -/
theorem loopBodyS_slept (st : Settings) (e : IterEnv) (s : LoopState)
    (h : (loopBodyS st e s).2 = true) : (loopBodyS st e s).1.rtcNeedsSync = true := by
  by_cases hs : shouldSleepNow st (e.storeDataEffect s).measurementStartTime e.timeNow = true
  · simp [loopBodyS, hs]
  · simp [loopBodyS, hs] at h

/-- Claim C8: in any `loop` run, if iteration `i` takes the sleep branch
(returns from `goToSleep`), then the state observed by the very next
iteration's sample has `rtcNeedsSync = true` — a wake from sleep always
forces an RTC re-synchronization request before any subsequent sample,
whatever `storeData` and `goToSleep` themselves do to the globals. -/
theorem C8_wake_forces_resync (st : Settings) (envs : List IterEnv) (s : LoopState) (i : Nat)
    (hlen : i + 1 < (runIters st envs s).length)
    (hslept : (runIters st envs s)[i].2 = true) :
    (runIters st envs s)[i + 1].1.rtcNeedsSync = true := by
  induction envs generalizing s i with
  | nil => simp [runIters] at hlen
  | cons e es ih =>
    cases i with
    | zero =>
      cases es with
      | nil => simp [runIters] at hlen
      | cons e2 es2 =>
        have hb : (loopBodyS st e s).2 = true := by simpa [runIters] using hslept
        simpa [runIters] using loopBodyS_slept st e s hb
    | succ j =>
      simp only [runIters, List.length_cons, List.getElem_cons_succ] at hlen hslept ⊢
      exact ih (loopBodyS st e s).1 j (by omega) hslept

/-- Witness for C8: with the scenario settings, iteration 0 sleeps and the
state observed by iteration 1 has `rtcNeedsSync = true`. -/
theorem C8_witness :
    (0 + 1 < (runIters scenarioSettings envsW s0W).length
      ∧ ((runIters scenarioSettings envsW s0W).get ⟨0, by decide⟩).2 = true)
    ∧ ((runIters scenarioSettings envsW s0W).get ⟨1, by decide⟩).1.rtcNeedsSync = true :=
  ⟨⟨by decide, by decide⟩,
    C8_wake_forces_resync scenarioSettings envsW s0W 0 (by decide) (by decide)⟩

end OLAGnss
